import Mathlib

/-!
Verification development for the plugins-demo HTTP plugin host.

The definitions below are a shallow embedding of the Go source:
* wire types `HTTPRequest` / `HTTPResponse` (pb package),
* the pipeline (`internal/plugins/pipeline`): category table, `Run`,
  `RunRequest`, `RunResponse`, and the HTTP middleware glue,
* the adapter (`grpc_plugin_adapter`) and the manager
  (`internal/plugins/manager.go`).

Effectful Go code is embedded by explicit state passing; calls made to
plugins and RPCs issued to the remote process are recorded in explicit
traces so that "plugin X was called with payload P" is a statement about
the embedding.  Parallel categories are determinised to registration
order; no verified claim depends on the completion order of the
goroutines (only on the collected error set being empty or not).
-/

namespace PluginsDemo

/-- Go `type Flow int` with `FlowRequest = 0`, `FlowResponse = 1`
(pkg/contract/plugin/flows.go). -/
abbrev Flow := Int

def FlowRequest : Flow := 0

def FlowResponse : Flow := 1

/-- Go `type ExecutionMode int` with `ExecSerial = 0`, `ExecParallel = 1`
(pkg/contract/plugin/execution_modes.go). -/
abbrev ExecutionMode := Int

def ExecSerial : ExecutionMode := 0

def ExecParallel : ExecutionMode := 1

/-- Go `type Category string`. -/
abbrev Category := String

/-- `pkg.CategoryProperties` (execution_modes.go). -/
structure CategoryProperties where
  Mode : ExecutionMode
  CanReject : Bool
  CanModify : Bool
deriving DecidableEq

/-- The static `categoryProps` table (pipeline/categories.go), as a
partial lookup. -/
def categoryProps (c : Category) : Option CategoryProperties :=
  if c = "authentication" then some ⟨ExecSerial, true, false⟩
  else if c = "authorization" then some ⟨ExecSerial, true, false⟩
  else if c = "rate-limiting" then some ⟨ExecSerial, true, false⟩
  else if c = "validation" then some ⟨ExecSerial, true, false⟩
  else if c = "content" then some ⟨ExecSerial, true, true⟩
  else if c = "observability" then some ⟨ExecParallel, false, false⟩
  else none

/-- `PropsForCategory` (pipeline/categories.go): table row, or the
conservative default. -/
def PropsForCategory (c : Category) : CategoryProperties :=
  (categoryProps c).getD ⟨ExecSerial, false, false⟩

/-- `OrderedCategories` (pipeline/categories.go). -/
def OrderedCategories : List Category :=
  ["observability", "authentication", "authorization", "rate-limiting",
   "validation", "content"]

/-- Wire `pb.HTTPRequest` (headers flattened to first value, body as
bytes; byte values are modelled as `Nat`). -/
structure HTTPRequest where
  Method : String
  Url : String
  Path : String
  Headers : List (String × String)
  Body : List Nat
  RemoteAddr : String
  RequestUri : String
deriving DecidableEq

/-- Wire `pb.HTTPResponse`. `Continue` and the nullable
`ModifiedRequest` drive the pipeline semantics. -/
structure HTTPResponse where
  StatusCode : Int
  Headers : List (String × String)
  Body : List Nat
  Continue : Bool
  ModifiedRequest : Option HTTPRequest
deriving DecidableEq

/-- A Go `any` payload as it flows through the pipeline: the two wire
types the type switches in `Run` recognise, and an opaque case for any
other value a plugin may return. -/
inductive Payload where
  | req (r : HTTPRequest)
  | resp (r : HTTPResponse)
  | opaque_value (tag : String)
deriving DecidableEq

/-- Go `error` values as built by the core: `errors.New`,
`fmt.Errorf("...: %w", e)`, `fmt.Errorf("%w: %w", e1, e2)` and
`errors.Join`. -/
inductive GoError where
  | mk (msg : String)
  | wrap (msg : String) (cause : GoError)
  | wrapPair (sentinel : GoError) (cause : GoError)
  | joined (errs : List GoError)

/-- `plugins.ErrRequiredPluginFailed` (errors file). -/
def ErrRequiredPluginFailed : GoError :=
  .mk "required plugin failed to handle request"

/-- `plugins.ErrInvalidRequestType`. -/
def ErrInvalidRequestType : GoError := .mk "invalid request type for plugin"

/-- `plugins.ErrInvalidResponseType`. -/
def ErrInvalidResponseType : GoError := .mk "invalid response type for plugin"

/-- A record of one plugin invocation made by `Pipeline.Run`: which
plugin, on which flow, with which payload. -/
structure Call where
  plugin : String
  flow : Flow
  input : Payload
deriving DecidableEq

/-- The `pipeline.Plugin` interface: `ID`, `HandleRequest`,
`HandleResponse`, `CanHandle`, `Required`.  Handlers are pure functions
of the payload (the context carries no data in the embedding). -/
structure Plugin where
  id : String
  handleRequest : Payload → Except GoError Payload
  handleResponse : Payload → Except GoError Payload
  canHandle : Flow → Bool
  required : Bool

/-- The pipeline's registry: the registration log.  Go keeps
`map[Category][]Plugin` with `Register` appending; the per-category
lists are recovered by `pluginsFor`, preserving registration order. -/
structure Pipeline where
  registrations : List (Category × Plugin)

/-- `NewPipeline`. -/
def NewPipeline : Pipeline := ⟨[]⟩

/-- `Pipeline.Register`: append to the category's list. -/
def Pipeline.RegisterPlugin (p : Pipeline) (cat : Category) (pl : Plugin) :
    Pipeline :=
  ⟨p.registrations ++ [(cat, pl)]⟩

/-- `p.plugins[cat]`: plugins registered for `cat`, in registration
order. -/
def Pipeline.pluginsFor (p : Pipeline) (cat : Category) : List Plugin :=
  (p.registrations.filter (fun r => r.1 == cat)).map (·.2)

/-- The `switch flow` statement in the serial and parallel bodies of
`Run`: dispatch to `HandleRequest` / `HandleResponse`, or produce the
"unknown flow" error without calling the plugin.  Returns the result
together with the calls made. -/
def callPlugin (fl : Flow) (pl : Plugin) (payload : Payload) :
    Except GoError Payload × List Call :=
  if fl = FlowRequest then (pl.handleRequest payload, [⟨pl.id, fl, payload⟩])
  else if fl = FlowResponse then
    (pl.handleResponse payload, [⟨pl.id, fl, payload⟩])
  else (.error (.mk ("unknown flow: " ++ toString fl)), [])

/-- Outcome of one category of `Run`: either return now from `Run`
(short-circuit response or error), or continue to the next category with
the (possibly updated) payload. -/
inductive StepOut where
  | halt (r : Except GoError Payload)
  | next (payload : Payload)

/-- The serial branch of `Run` (part_002 lines 73-121): iterate active
plugins in order; short-circuit on a `Continue=false` response; under
`CanModify`, substitute a non-nil `ModifiedRequest`; apply the error
policy (required / canReject / log-and-continue). -/
def runSerial (fl : Flow) (props : CategoryProperties) :
    List Plugin → Payload → StepOut × List Call
  | [], payload => (.next payload, [])
  | pl :: rest, payload =>
    let (res, tr) := callPlugin fl pl payload
    match res with
    | .ok out =>
      match out with
      | .resp hr =>
        if hr.Continue = false then (.halt (.ok (.resp hr)), tr)
        else
          let payload2 :=
            if props.CanModify then
              match hr.ModifiedRequest with
              | some mr => Payload.req mr
              | none => payload
            else payload
          let (step, tr2) := runSerial fl props rest payload2
          (step, tr ++ tr2)
      | _ =>
        let (step, tr2) := runSerial fl props rest payload
        (step, tr ++ tr2)
    | .error e =>
      if pl.required then
        (.halt (.error (.wrapPair ErrRequiredPluginFailed e)), tr)
      else if props.CanReject then (.halt (.error e), tr)
      else
        let (step, tr2) := runSerial fl props rest payload
        (step, tr ++ tr2)

/-- One goroutine of the parallel branch (part_002 lines 137-174): call
the plugin, discard any successful result, classify an error by the
policy; `none` means nothing was sent on the error channel. -/
def parallelErr (fl : Flow) (props : CategoryProperties) (pl : Plugin)
    (payload : Payload) : Option GoError × List Call :=
  let (res, tr) := callPlugin fl pl payload
  match res with
  | .ok _ => (none, tr)
  | .error e =>
    if pl.required then (some (.wrapPair ErrRequiredPluginFailed e), tr)
    else if props.CanReject then (some e, tr)
    else (none, tr)

/-- The parallel branch of `Run` (part_002 lines 123-186): refuse
`CanModify`, dispatch every active plugin on the unchanged payload,
join collected errors.  Collection is determinised to registration
order. -/
def runParallel (fl : Flow) (props : CategoryProperties) (cat : Category)
    (active : List Plugin) (payload : Payload) : StepOut × List Call :=
  if props.CanModify then
    (.halt (.error (.mk
      ("parallel execution and request mutation are mutually exclusive: '"
        ++ cat ++ "'"))), [])
  else
    let results := active.map (fun pl => parallelErr fl props pl payload)
    let errs := (results.map (·.1)).reduceOption
    let tr := (results.map (·.2)).flatten
    if errs.isEmpty then (.next payload, tr)
    else (.halt (.error (.joined errs)), tr)

/-- One iteration of the category loop in `Run`: filter active plugins,
skip the category when none, dispatch by the category's mode. -/
def runCat (fl : Flow) (cat : Category) (plugins : List Plugin)
    (payload : Payload) : StepOut × List Call :=
  let props := PropsForCategory cat
  let active := plugins.filter (fun pl => pl.canHandle fl)
  if active.isEmpty then (.next payload, [])
  else if props.Mode = ExecSerial then runSerial fl props active payload
  else if props.Mode = ExecParallel then
    runParallel fl props cat active payload
  else
    (.halt (.error (.mk ("unsupported execution mode for category '" ++ cat
      ++ "': " ++ toString props.Mode))), [])

/-- The category loop of `Run`, threading the payload between
categories; a halt returns immediately, skipping every later
category. -/
def runCats (fl : Flow) (reg : Category → List Plugin) :
    List Category → Payload → Except GoError Payload × List Call
  | [], payload => (.ok payload, [])
  | c :: cs, payload =>
    let (step, tr) := runCat fl c (reg c) payload
    match step with
    | .halt r => (r, tr)
    | .next payload2 =>
      let (r, tr2) := runCats fl reg cs payload2
      (r, tr ++ tr2)

/-- `Pipeline.Run` (part_002 lines 54-193). -/
def Pipeline.Run (p : Pipeline) (fl : Flow) (payload : Payload) :
    Except GoError Payload × List Call :=
  runCats fl p.pluginsFor OrderedCategories payload

/-- The `&pb.HTTPResponse{Continue: true}` value `RunRequest`
synthesises when no plugin produced a response. -/
def continueResponse : HTTPResponse :=
  { StatusCode := 0, Headers := [], Body := [], Continue := true
    ModifiedRequest := none }

/-- `Pipeline.RunRequest` (part_002 lines 199-212). -/
def Pipeline.RunRequest (p : Pipeline) (req : HTTPRequest) :
    Except GoError HTTPResponse × List Call :=
  let (result, tr) := p.Run FlowRequest (.req req)
  match result with
  | .error e => (.error e, tr)
  | .ok (.resp hr) => (.ok hr, tr)
  | .ok _ => (.ok continueResponse, tr)

/-- `Pipeline.RunResponse` (part_002 lines 217-230). -/
def Pipeline.RunResponse (p : Pipeline) (resp : HTTPResponse) :
    Except GoError HTTPResponse × List Call :=
  let (result, tr) := p.Run FlowResponse (.resp resp)
  match result with
  | .error e => (.error e, tr)
  | .ok (.resp hr) => (.ok hr, tr)
  | .ok _ => (.ok resp, tr)

/-- What the middleware did with one HTTP exchange: replied with an
error status without the handler, wrote a short-circuit response
without the handler, or served the handler (recording the request it
was given) and wrote the final response. -/
inductive MWOutcome where
  | errorReply (status : Int)
  | shortCircuit (resp : HTTPResponse)
  | served (handlerInput : HTTPRequest) (written : HTTPResponse)
deriving DecidableEq

/-- `Pipeline.Middleware` (middleware.go lines 12-66) at the wire
level: run the REQUEST flow; on pipeline error reply 503; on a
`Continue=false` response write it and stop; otherwise serve the
application handler with the original request `r`, wrap its output
with `Continue=true`, run the RESPONSE flow and write the result. -/
def Pipeline.Middleware (p : Pipeline) (req : HTTPRequest)
    (handler : HTTPRequest → HTTPResponse) : MWOutcome × List Call :=
  let (r1, tr1) := p.RunRequest req
  match r1 with
  | .error _ => (.errorReply 503, tr1)
  | .ok resp =>
    if resp.Continue = false then (.shortCircuit resp, tr1)
    else
      let hr := handler req
      let handlerResp : HTTPResponse :=
        { StatusCode := hr.StatusCode, Headers := hr.Headers
          Body := hr.Body, Continue := true, ModifiedRequest := none }
      let (r2, tr2) := p.RunResponse handlerResp
      match r2 with
      | .error _ => (.errorReply 503, tr1 ++ tr2)
      | .ok fin => (.served req fin, tr1 ++ tr2)

/-- `pkg.Metadata` as cached by the adapter. -/
structure Metadata where
  Name : String
  Version : String
  Description : String
  CommitHash : String
  BuildDate : String
deriving DecidableEq

/-- `pkg.Capabilities` is `map[Flow]struct{}` where only `FlowRequest`
and `FlowResponse` are ever inserted (grpc adapter `fetchCapabilities`);
the map is therefore represented by its two membership bits. -/
structure Capabilities where
  hasRequest : Bool
  hasResponse : Bool
deriving DecidableEq

/-- Membership test `_, ok := caps[f]`. -/
def Capabilities.contains (c : Capabilities) (f : Flow) : Bool :=
  (f == FlowRequest && c.hasRequest) || (f == FlowResponse && c.hasResponse)

/-- Wire `pb.Flow` enum values: `FLOW_REQUEST`, `FLOW_RESPONSE`, plus
arbitrary unknown tags.  Only distinctness of the two known tags
matters. -/
abbrev WireFlow := Int

def pbFlowRequest : WireFlow := 1

def pbFlowResponse : WireFlow := 2

/-- The RPC methods issued during startup and caching; traces of these
record what the host sent to the plugin process. -/
inductive RPCMethod where
  | getMetadata
  | getCapabilities
deriving DecidableEq

/-- The remote plugin process as the host's RPC client observes it
during the handshake: what `GetMetadata` and `GetCapabilities` reply. -/
structure PluginClient where
  metadataResult : Except GoError Metadata
  capabilitiesResult : Except GoError (List WireFlow)

/-- The wire-tag normalisation loop in the adapter's
`fetchCapabilities`: known tags populate the set, unknown tags are
silently ignored. -/
def normaliseFlows (flows : List WireFlow) : Capabilities :=
  flows.foldl
    (fun acc f =>
      if f == pbFlowRequest then { acc with hasRequest := true }
      else if f == pbFlowResponse then { acc with hasResponse := true }
      else acc)
    ⟨false, false⟩

/-- `grpcPluginAdapter.fetchMetadata` with its RPC trace. -/
def fetchMetadata (c : PluginClient) :
    Except GoError Metadata × List RPCMethod :=
  (c.metadataResult, [.getMetadata])

/-- `grpcPluginAdapter.fetchCapabilities` (part_000 lines 56-77):
normalise the declared wire flows, reject an empty resulting set. -/
def fetchCapabilities (c : PluginClient) :
    Except GoError Capabilities × List RPCMethod :=
  match c.capabilitiesResult with
  | .error e => (.error e, [.getCapabilities])
  | .ok flows =>
    let caps := normaliseFlows flows
    if caps = ⟨false, false⟩ then
      (.error (.mk "plugin returned empty capabilities"), [.getCapabilities])
    else (.ok caps, [.getCapabilities])

/-- `grpcPluginAdapter`: client plus the two caches filled at
construction. -/
structure grpcPluginAdapter where
  client : PluginClient
  metadata : Metadata
  capabilities : Capabilities

/-- `NewGRPCPluginAdapter` (part_000 lines 27-40): eagerly fetch and
cache metadata then capabilities, wrapping failures. -/
def NewGRPCPluginAdapter (c : PluginClient) :
    Except GoError grpcPluginAdapter × List RPCMethod :=
  match fetchMetadata c with
  | (.error e, tr) => (.error (.wrap "fetching metadata" e), tr)
  | (.ok md, tr1) =>
    match fetchCapabilities c with
    | (.error e, tr2) => (.error (.wrap "fetching capabilities" e), tr1 ++ tr2)
    | (.ok caps, tr2) => (.ok ⟨c, md, caps⟩, tr1 ++ tr2)

/-- `grpcPluginAdapter.Metadata()`: a pure read of the cache — no RPC
is issued (empty trace) and no error can be produced (total type). -/
def grpcPluginAdapter.Metadata (a : grpcPluginAdapter) :
    Metadata × List RPCMethod :=
  (a.metadata, [])

/-- `grpcPluginAdapter.Capabilities()`: a pure read of the cache. -/
def grpcPluginAdapter.Capabilities (a : grpcPluginAdapter) :
    Capabilities × List RPCMethod :=
  (a.capabilities, [])

/-- `plugins.PluginInstance`: adapter, stable id (= metadata name at
start), required flag.  The empty `PluginConfig` carries no data the
verified claims touch and is omitted. -/
structure PluginInstance where
  plugin : grpcPluginAdapter
  id : String
  required : Bool

/-- `PluginInstance.CanHandle`: capability membership. -/
def PluginInstance.CanHandle (pi : PluginInstance) (f : Flow) : Bool :=
  pi.plugin.capabilities.contains f

/-- The runtime behaviour of one managed child process, as `stopPlugin`
observes it: whether the `Stop` RPC fails, whether the process exits
within the 2 s wait, and whether `Process.Kill` fails. -/
structure runningPlugin where
  instanceId : String
  address : String
  network : String
  stopRPCFails : Bool
  exitsWithinWait : Bool
  killFails : Bool
deriving DecidableEq

/-- The manager's mutex-guarded `map[string]*runningPlugin`, as an
association list with at most one entry per key. -/
structure ManagerState where
  plugins : List (String × runningPlugin)
deriving DecidableEq

/-- Go map assignment `m.plugins[name] = rp`: any existing entry for
the key is replaced. -/
def mapInsert (m : List (String × runningPlugin)) (k : String)
    (v : runningPlugin) : List (String × runningPlugin) :=
  (m.filter (fun kv => kv.1 ≠ k)) ++ [(k, v)]

/-- `Manager.stopPlugin` (manager.go lines 197-237): the `Stop` RPC
failure and the connection-close failure are logged only; the function
returns an error exactly when the process does not exit within the 2 s
wait and the subsequent force-kill fails. -/
def Manager.stopPlugin (rp : runningPlugin) : Option GoError :=
  if rp.exitsWithinWait then none
  else if rp.killFails then
    some (.wrap "failed to kill process" (.mk "kill error"))
  else none

/-- Result of `Manager.StopAll`: the value it returns, the `stopPlugin`
errors it logged, and the snapshot of plugins it iterated. -/
structure StopAllResult where
  result : Option GoError
  loggedErrors : List GoError
  stopped : List runningPlugin

/-- `Manager.StopAll` (manager.go lines 179-195): snapshot and clear
the map, stop each entry, log `stopPlugin` errors, and return `nil`
unconditionally (the literal `return nil` on line 194). -/
def Manager.StopAll (st : ManagerState) : StopAllResult × ManagerState :=
  let snapshot := st.plugins.map (·.2)
  ({ result := none
     loggedErrors := (snapshot.map Manager.stopPlugin).reduceOption
     stopped := snapshot },
   ⟨[]⟩)

/-- Cleanup actions taken by the error paths of `Manager.Start`. -/
inductive StartAction where
  | killProcess
  | closeConn
deriving DecidableEq

/-- The transport half of a spawned child: the generated address and
network, used to build the `runningPlugin` record.  The stop-behaviour
bits describe how the process will later react to `stopPlugin`. -/
structure ProcDescriptor where
  address : String
  network : String
  stopRPCFails : Bool
  exitsWithinWait : Bool
  killFails : Bool
deriving DecidableEq

/-- `Manager.Start` from the first RPC onward (manager.go lines
117-163; process spawn, socket wait and dial are assumed to have
succeeded — their failure paths never reach the plugin map).  The
manager issues its own `GetMetadata`, then constructs the adapter
(which re-fetches metadata and fetches capabilities); on failure it
cleans up and leaves the map untouched, on success it registers the
running plugin under the metadata name. -/
def Manager.StartFromConn (st : ManagerState) (proc : ProcDescriptor)
    (c : PluginClient) :
    Except GoError PluginInstance × ManagerState × List StartAction
      × List RPCMethod :=
  match c.metadataResult with
  | .error e =>
    (.error (.wrap "failed to get metadata" e), st,
     [.closeConn, .killProcess], [.getMetadata])
  | .ok md =>
    match NewGRPCPluginAdapter c with
    | (.error e, tr) =>
      (.error (.wrap "creating adapter" e), st,
       [.killProcess, .closeConn], .getMetadata :: tr)
    | (.ok adapter, tr) =>
      let inst : PluginInstance := ⟨adapter, md.Name, false⟩
      let rp : runningPlugin :=
        ⟨md.Name, proc.address, proc.network, proc.stopRPCFails,
         proc.exitsWithinWait, proc.killFails⟩
      (.ok inst, ⟨mapInsert st.plugins md.Name rp⟩, [],
       .getMetadata :: tr)

/-! ### Concrete fixtures

In-process test doubles for the `pipeline.Plugin` interface (the Go
design explicitly allows such doubles next to the gRPC adapter), plus
sample wire values used for witnesses and counterexamples. -/

/-- A sample inbound request: `GET /x` with no headers. -/
def sampleReq : HTTPRequest :=
  ⟨"GET", "/x", "/x", [], [], "127.0.0.1:4000", "/x"⟩

/-- `sampleReq` with header `X-One: 1` (scenario S3's first mutation). -/
def mr1 : HTTPRequest :=
  ⟨"GET", "/x", "/x", [("X-One", "1")], [], "127.0.0.1:4000", "/x"⟩

/-- `sampleReq` with headers `X-One: 1` and `X-Two: 2` (S3's second
mutation). -/
def mr2 : HTTPRequest :=
  ⟨"GET", "/x", "/x", [("X-One", "1"), ("X-Two", "2")], [],
   "127.0.0.1:4000", "/x"⟩

/-- A `Continue=true` wire response carrying an optional modified
request. -/
def contResp (m : Option HTTPRequest) : HTTPResponse :=
  ⟨0, [], [], true, m⟩

/-- A REQUEST-flow plugin that always continues and returns
`modifiedRequest = f input`. -/
def modifierPlugin (name : String) (f : Payload → HTTPRequest) : Plugin :=
  { id := name
    handleRequest := fun x => .ok (.resp (contResp (some (f x))))
    handleResponse := fun x => .ok x
    canHandle := fun fl => fl == FlowRequest
    required := false }

/-- A pipeline whose only registrations are content-category modifier
plugins, in the given order. -/
def contentPipeline (fs : List (String × (Payload → HTTPRequest))) :
    Pipeline :=
  ⟨fs.map (fun nf => ("content", modifierPlugin nf.1 nf.2))⟩

/-- The payload after the whole modifier chain has run: each step
replaces the payload with `.req (f payload)`. -/
def chainPayload : List (String × (Payload → HTTPRequest)) → Payload →
    Payload
  | [], x => x
  | nf :: rest, x => chainPayload rest (.req (nf.2 x))

/-- The expected call trace of the modifier chain: plugin `k+1`
receives exactly the request plugin `k` returned as `modifiedRequest`. -/
def chainTrace : List (String × (Payload → HTTPRequest)) → Payload →
    List Call
  | [], _ => []
  | nf :: rest, x => ⟨nf.1, FlowRequest, x⟩ :: chainTrace rest (.req (nf.2 x))

/-- S2's blocking response: `{continue=false, 400, body "blocked"}`. -/
def blockResp : HTTPResponse :=
  ⟨400, [], [98, 108, 111, 99, 107, 101, 100], false, none⟩

/-- A validation plugin that always short-circuits with `blockResp`. -/
def blockPlugin : Plugin :=
  { id := "V"
    handleRequest := fun _ => .ok (.resp blockResp)
    handleResponse := fun x => .ok x
    canHandle := fun fl => fl == FlowRequest
    required := false }

/-- The S3 pipeline: two content modifiers `H1` (adds `X-One`) and `H2`
(adds `X-One` and `X-Two`). -/
def pipeS3 : Pipeline := contentPipeline [("H1", fun _ => mr1), ("H2", fun _ => mr2)]

/-- S2's pipeline: blocking validation plugin plus a content modifier
that must never run. -/
def pipeS2 : Pipeline :=
  (NewPipeline.RegisterPlugin "validation" blockPlugin).RegisterPlugin
    "content" (modifierPlugin "A" (fun _ => mr1))

/-- An application handler echoing the request's headers with a 200. -/
def sampleHandler : HTTPRequest → HTTPResponse :=
  fun r => ⟨200, r.Headers, [], true, none⟩

/-- The application's captured response in the C5 scenario. -/
def resp0 : HTTPResponse := ⟨200, [], [], true, none⟩

/-- The response a RESPONSE-flow content plugin returns to express a
mutation: `continue=true` with changed status, headers and body. -/
def mutResp : HTTPResponse := ⟨201, [("X-M", "1")], [104, 105], true, none⟩

/-- A RESPONSE-flow content plugin returning `mutResp` on every call. -/
def respMutPlugin : Plugin :=
  { id := "M"
    handleRequest := fun x => .ok x
    handleResponse := fun _ => .ok (.resp mutResp)
    canHandle := fun fl => fl == FlowResponse
    required := false }

/-- A RESPONSE-flow content plugin returning `continue=true` with a
non-null `modifiedRequest`. -/
def modReqPlugin : Plugin :=
  { id := "N"
    handleRequest := fun x => .ok x
    handleResponse := fun _ => .ok (.resp ⟨200, [], [], true, some mr1⟩)
    canHandle := fun fl => fl == FlowResponse
    required := false }

/-- A RESPONSE-flow content plugin whose only purpose is to appear in
the call trace with the payload it was handed. -/
def observerPlugin : Plugin :=
  { id := "O"
    handleRequest := fun x => .ok x
    handleResponse := fun _ => .ok (.opaque_value "seen")
    canHandle := fun fl => fl == FlowResponse
    required := false }

/-- Pipeline with the single mutating RESPONSE-flow content plugin. -/
def pipeMut : Pipeline := NewPipeline.RegisterPlugin "content" respMutPlugin

/-- Pipeline with the `modifiedRequest`-returning plugin followed by the
observer, both in the content category. -/
def pipeModReq : Pipeline :=
  (NewPipeline.RegisterPlugin "content" modReqPlugin).RegisterPlugin
    "content" observerPlugin

/-- A required REQUEST-flow plugin that always errors. -/
def errPluginReq : Plugin :=
  { id := "R"
    handleRequest := fun _ => .error (.mk "boom")
    handleResponse := fun x => .ok x
    canHandle := fun fl => fl == FlowRequest
    required := true }

/-- An optional REQUEST-flow plugin that always errors. -/
def errPluginOpt : Plugin :=
  { id := "E"
    handleRequest := fun _ => .error (.mk "boom")
    handleResponse := fun x => .ok x
    canHandle := fun fl => fl == FlowRequest
    required := false }

/-- An observability plugin that tries to short-circuit and to mutate
at once: its wire response has `continue=false` and a non-null
`modifiedRequest`.  In a parallel category both must be ignored. -/
def noisyPlugin : Plugin :=
  { id := "P"
    handleRequest := fun _ => .ok (.resp ⟨429, [], [], false, some mr1⟩)
    handleResponse := fun x => .ok x
    canHandle := fun fl => fl == FlowRequest
    required := false }

/-- A required RESPONSE-flow plugin that always errors. -/
def errRespReq : Plugin :=
  { id := "RR"
    handleRequest := fun x => .ok x
    handleResponse := fun _ => .error (.mk "boom")
    canHandle := fun fl => fl == FlowResponse
    required := true }

/-- An optional RESPONSE-flow plugin that always errors. -/
def errRespOpt : Plugin :=
  { id := "EO"
    handleRequest := fun x => .ok x
    handleResponse := fun _ => .error (.mk "boom")
    canHandle := fun fl => fl == FlowResponse
    required := false }

/-- The RESPONSE-flow counterpart of `noisyPlugin`: its wire response
has `continue=false` and a non-null `modifiedRequest`, both of which a
parallel category must ignore. -/
def noisyRespPlugin : Plugin :=
  { id := "Q"
    handleRequest := fun x => .ok x
    handleResponse := fun _ => .ok (.resp ⟨500, [], [], false, some mr1⟩)
    canHandle := fun fl => fl == FlowResponse
    required := false }

/-- The `runningPlugin` record `Manager.Start` registers for a child
with transport `proc` whose metadata name is `name`. -/
def startedRP (proc : ProcDescriptor) (name : String) : runningPlugin :=
  ⟨name, proc.address, proc.network, proc.stopRPCFails,
   proc.exitsWithinWait, proc.killFails⟩

/-- A managed plugin whose process ignores SIGTERM and whose force-kill
fails. -/
def rpKillFail : runningPlugin :=
  ⟨"p", "/tmp/plugin-p-0.sock", "unix", false, false, true⟩

/-- Sample metadata: the plugin is named `p`. -/
def md0 : Metadata := ⟨"p", "1.0.0", "", "", ""⟩

/-- A well-behaved remote plugin: metadata `md0`, declares
`FLOW_REQUEST`. -/
def cGood : PluginClient := ⟨.ok md0, .ok [pbFlowRequest]⟩

/-- A remote plugin declaring only an unknown wire flow tag, so its
normalised capability set is empty. -/
def cEmptyCaps : PluginClient := ⟨.ok md0, .ok [(47 : WireFlow)]⟩

/-- Transport descriptor of a freshly spawned well-behaved child. -/
def proc0 : ProcDescriptor := ⟨"/tmp/plugin-p-1.sock", "unix", false, true, false⟩

/-- The previously registered running plugin named `p`. -/
def rpOldConc : runningPlugin :=
  ⟨"p", "/tmp/plugin-p-0.sock", "unix", false, true, false⟩

/-- The running plugin record a successful `StartFromConn` with `proc0`
and `cGood` registers. -/
def rpNew0 : runningPlugin :=
  ⟨"p", "/tmp/plugin-p-1.sock", "unix", false, true, false⟩

/-- The adapter a successful handshake with `cGood` caches. -/
def adapter0 : grpcPluginAdapter := ⟨cGood, md0, ⟨true, false⟩⟩

/-- The instance `StartFromConn` returns for `cGood`. -/
def inst0 : PluginInstance := ⟨adapter0, "p", false⟩

/-- Manager state already holding a running plugin named `p`. -/
def st0 : ManagerState := ⟨[("p", rpOldConc)]⟩

/-! ### Helper lemmas about the pipeline embedding -/

lemma runCat_nil (fl : Flow) (cat : Category) (payload : Payload) :
    runCat fl cat [] payload = (.next payload, []) := rfl

lemma runCats_halt_lemma {fl : Flow} {reg : Category → List Plugin}
    {c : Category} {cs : List Category} {payload : Payload}
    {r : Except GoError Payload} {tr : List Call}
    (h : runCat fl c (reg c) payload = (.halt r, tr)) :
    runCats fl reg (c :: cs) payload = (r, tr) := by
  simp [runCats, h]

lemma runCats_next_lemma {fl : Flow} {reg : Category → List Plugin}
    {c : Category} {cs : List Category} {payload q : Payload}
    {tr : List Call}
    (h : runCat fl c (reg c) payload = (.next q, tr)) :
    runCats fl reg (c :: cs) payload
      = ((runCats fl reg cs q).1, tr ++ (runCats fl reg cs q).2) := by
  simp [runCats, h]

lemma runCats_skip {fl : Flow} {reg : Category → List Plugin}
    {c : Category} {cs : List Category} {payload : Payload}
    (h : runCat fl c (reg c) payload = (.next payload, [])) :
    runCats fl reg (c :: cs) payload = runCats fl reg cs payload := by
  simp [runCats, h]

lemma runCats_all_inactive (fl : Flow) (reg : Category → List Plugin)
    (cats : List Category) (payload : Payload)
    (h : ∀ c ∈ cats, ∀ pl ∈ reg c, pl.canHandle fl = false) :
    runCats fl reg cats payload = (.ok payload, []) := by
  induction cats with
  | nil => rfl
  | cons c cs ih =>
    have hf : (reg c).filter (fun pl => pl.canHandle fl) = [] := by
      refine List.filter_eq_nil_iff.mpr ?_
      intro a ha
      simp [h c (List.mem_cons_self c cs) a ha]
    have hcat : runCat fl c (reg c) payload = (.next payload, []) := by
      simp [runCat, hf]
    rw [runCats_skip hcat]
    exact ih (fun d hd => h d (List.mem_cons_of_mem c hd))

lemma modifiers_filter (fs : List (String × (Payload → HTTPRequest))) :
    (fs.map (fun nf => modifierPlugin nf.1 nf.2)).filter
        (fun pl => pl.canHandle FlowRequest)
      = fs.map (fun nf => modifierPlugin nf.1 nf.2) := by
  induction fs with
  | nil => rfl
  | cons nf rest ih =>
    have hhead : (modifierPlugin nf.1 nf.2).canHandle FlowRequest = true := rfl
    simp only [List.map_cons, List.filter_cons, hhead, if_true]
    rw [ih]

lemma runSerial_modifiers (props : CategoryProperties)
    (hmod : props.CanModify = true)
    (fs : List (String × (Payload → HTTPRequest))) (payload : Payload) :
    runSerial FlowRequest props (fs.map (fun nf => modifierPlugin nf.1 nf.2))
        payload
      = (.next (chainPayload fs payload), chainTrace fs payload) := by
  induction fs generalizing payload with
  | nil => rfl
  | cons nf rest ih =>
    have hhead : callPlugin FlowRequest (modifierPlugin nf.1 nf.2) payload
        = (.ok (.resp (contResp (some (nf.2 payload)))),
           [⟨nf.1, FlowRequest, payload⟩]) := rfl
    simp only [List.map_cons, runSerial, hhead, contResp, hmod]
    rw [ih]
    simp [chainPayload, chainTrace]

lemma contentPipeline_pluginsFor_content
    (fs : List (String × (Payload → HTTPRequest))) :
    (contentPipeline fs).pluginsFor "content"
      = fs.map (fun nf => modifierPlugin nf.1 nf.2) := by
  induction fs with
  | nil => rfl
  | cons nf rest ih =>
    simpa [contentPipeline, Pipeline.pluginsFor] using ih

lemma contentPipeline_pluginsFor_ne
    (fs : List (String × (Payload → HTTPRequest))) (cat : Category)
    (h : cat ≠ "content") :
    (contentPipeline fs).pluginsFor cat = [] := by
  induction fs with
  | nil => rfl
  | cons nf rest ih =>
    have hbeq : (("content" : String) == cat) = false := by
      exact beq_eq_false_iff_ne.mpr (fun hc => h hc.symm)
    simpa [contentPipeline, Pipeline.pluginsFor, hbeq] using ih

lemma runCat_content_modifiers
    (fs : List (String × (Payload → HTTPRequest))) (payload : Payload) :
    runCat FlowRequest "content"
        (fs.map (fun nf => modifierPlugin nf.1 nf.2)) payload
      = (.next (chainPayload fs payload), chainTrace fs payload) := by
  cases fs with
  | nil => rfl
  | cons nf rest =>
    have hfilter := modifiers_filter (nf :: rest)
    have hserial := runSerial_modifiers ⟨ExecSerial, true, true⟩ rfl
      (nf :: rest) payload
    have hprops : PropsForCategory "content" = ⟨ExecSerial, true, true⟩ := rfl
    simp only [runCat, hprops]
    rw [hfilter]
    simp only [List.map_cons] at hserial
    simp only [List.map_cons, List.isEmpty_cons]
    simp [hserial]

lemma contentPipeline_run
    (fs : List (String × (Payload → HTTPRequest))) (payload : Payload) :
    (contentPipeline fs).Run FlowRequest payload
      = (.ok (chainPayload fs payload), chainTrace fs payload) := by
  have hne : ∀ (c : Category) (x : Payload), c ≠ "content" →
      runCat FlowRequest c ((contentPipeline fs).pluginsFor c) x
        = (.next x, []) := by
    intro c x hc
    rw [contentPipeline_pluginsFor_ne fs c hc]
    exact runCat_nil FlowRequest c x
  show runCats FlowRequest (contentPipeline fs).pluginsFor
      OrderedCategories payload = _
  rw [show OrderedCategories = ["observability", "authentication",
    "authorization", "rate-limiting", "validation", "content"] from rfl]
  rw [runCats_skip (hne _ payload (by decide)),
    runCats_skip (hne _ payload (by decide)),
    runCats_skip (hne _ payload (by decide)),
    runCats_skip (hne _ payload (by decide)),
    runCats_skip (hne _ payload (by decide))]
  have hcontent : runCat FlowRequest "content"
      ((contentPipeline fs).pluginsFor "content") payload
        = (.next (chainPayload fs payload), chainTrace fs payload) := by
    rw [contentPipeline_pluginsFor_content]
    exact runCat_content_modifiers fs payload
  rw [runCats_next_lemma hcontent]
  simp [runCats]

lemma callPlugin_trace (fl : Flow)
    (hfl : fl = FlowRequest ∨ fl = FlowResponse) (pl : Plugin)
    (payload : Payload) :
    (callPlugin fl pl payload).2 = [⟨pl.id, fl, payload⟩] := by
  rcases hfl with h | h <;> subst h <;>
    simp [callPlugin, FlowRequest, FlowResponse]

lemma parallelErr_trace (fl : Flow) (props : CategoryProperties)
    (pl : Plugin) (payload : Payload) :
    (parallelErr fl props pl payload).2 = (callPlugin fl pl payload).2 := by
  rcases hc : callPlugin fl pl payload with ⟨res, tr⟩
  cases res with
  | ok v => simp [parallelErr, hc]
  | error e =>
    by_cases hreq : pl.required = true
    · simp [parallelErr, hc, hreq]
    · by_cases hrej : props.CanReject = true
      · simp [parallelErr, hc, hreq, hrej]
      · simp [parallelErr, hc, hreq, hrej]

lemma parallel_errs_nil (fl : Flow) (props : CategoryProperties)
    (active : List Plugin) (payload : Payload)
    (h : ∀ pl ∈ active, (parallelErr fl props pl payload).1 = none) :
    ((active.map (fun pl => parallelErr fl props pl payload)).map
        (·.1)).reduceOption = [] := by
  induction active with
  | nil => rfl
  | cons pl rest ih =>
    have hpl := h pl (List.mem_cons_self pl rest)
    simp only [List.map_cons, hpl, List.reduceOption_cons_of_none]
    exact ih (fun q hq => h q (List.mem_cons_of_mem pl hq))

lemma parallel_trace (fl : Flow)
    (hfl : fl = FlowRequest ∨ fl = FlowResponse)
    (props : CategoryProperties) (active : List Plugin)
    (payload : Payload) :
    ((active.map (fun pl => parallelErr fl props pl payload)).map
        (·.2)).flatten
      = active.map (fun pl => (⟨pl.id, fl, payload⟩ : Call)) := by
  induction active with
  | nil => rfl
  | cons pl rest ih =>
    have h1 : (parallelErr fl props pl payload).2
        = [⟨pl.id, fl, payload⟩] := by
      rw [parallelErr_trace]
      exact callPlugin_trace fl hfl pl payload
    simp only [List.map_map] at ih ⊢
    simp [h1, ih]

/-! ### Helper lemmas about the manager embedding -/

lemma chainPayload_isReq (fs : List (String × (Payload → HTTPRequest)))
    (r : HTTPRequest) : ∃ r2, chainPayload fs (.req r) = .req r2 := by
  induction fs generalizing r with
  | nil => exact ⟨r, rfl⟩
  | cons nf rest ih =>
    simpa [chainPayload] using ih (nf.2 (Payload.req r))

lemma startFromConn_ok_shape {st : ManagerState} {proc : ProcDescriptor}
    {c : PluginClient} {inst : PluginInstance} {st2 : ManagerState}
    {acts : List StartAction} {rpcs : List RPCMethod}
    (h : Manager.StartFromConn st proc c = (.ok inst, st2, acts, rpcs)) :
    ∃ md caps,
      c.metadataResult = .ok md
      ∧ inst = ⟨⟨c, md, caps⟩, md.Name, false⟩
      ∧ st2 = ⟨mapInsert st.plugins md.Name (startedRP proc md.Name)⟩
      ∧ acts = []
      ∧ rpcs = [.getMetadata, .getMetadata, .getCapabilities] := by
  cases hm : c.metadataResult with
  | error e => simp [Manager.StartFromConn, hm] at h
  | ok md =>
    cases hfc : c.capabilitiesResult with
    | error e =>
      simp [Manager.StartFromConn, NewGRPCPluginAdapter, fetchMetadata,
        fetchCapabilities, hm, hfc] at h
    | ok flows =>
      by_cases hemp : normaliseFlows flows = ⟨false, false⟩
      · simp [Manager.StartFromConn, NewGRPCPluginAdapter, fetchMetadata,
          fetchCapabilities, hm, hfc, hemp] at h
      · have hcomp : Manager.StartFromConn st proc c
            = (.ok ⟨⟨c, md, normaliseFlows flows⟩, md.Name, false⟩,
               ⟨mapInsert st.plugins md.Name (startedRP proc md.Name)⟩, [],
               [.getMetadata, .getMetadata, .getCapabilities]) := by
          simp [Manager.StartFromConn, NewGRPCPluginAdapter, fetchMetadata,
            fetchCapabilities, hm, hfc, hemp, startedRP]
        rw [hcomp] at h
        simp only [Prod.mk.injEq, Except.ok.injEq] at h
        exact ⟨md, normaliseFlows flows, rfl, h.1.symm, h.2.1.symm,
          h.2.2.1.symm, h.2.2.2.symm⟩

lemma mapInsert_mem_key (m : List (String × runningPlugin)) (k : String)
    (v w : runningPlugin) : (k, w) ∈ mapInsert m k v ↔ w = v := by
  simp [mapInsert, List.mem_filter]

lemma mapInsert_mem_other (m : List (String × runningPlugin))
    (k k2 : String) (v w : runningPlugin) (h : k2 ≠ k) :
    (k2, w) ∈ mapInsert m k v ↔ (k2, w) ∈ m := by
  simp [mapInsert, List.mem_filter, h]

/-! ### Claims -/

/-- C1 (counterexample): in the S3 scenario (two content modifiers, the
second producing `mr2`), `Run` does propagate the mutation between
plugins and ends with `mr2`, but `RunRequest` discards that payload and
the middleware hands the application handler the ORIGINAL request — the
handler serves `sampleReq`, not the last modified request `mr2`. -/
theorem c1_request_mutation_counterexample :
    (pipeS3.Middleware sampleReq sampleHandler).1
        = .served sampleReq ⟨200, [], [], true, none⟩
    ∧ (pipeS3.Run FlowRequest (.req sampleReq)).1 = .ok (.req mr2)
    ∧ sampleReq ≠ mr2 :=
  ⟨rfl, rfl, by decide⟩

/-- C1 (amended): in a REQUEST flow through content modifiers, each
plugin's `modifiedRequest` is the payload handed to the next plugin
(visible in the call trace) and `Run`'s final payload is the last
modified request; a payload leaving any category is the payload
entering the next; but `RunRequest` discards the final request payload
and returns a synthesised `Continue=true` response, so the application
handler is never given the modified request. -/
theorem c1_request_mutation_amended :
    (∀ (fs : List (String × (Payload → HTTPRequest))) (r : HTTPRequest),
        (contentPipeline fs).Run FlowRequest (.req r)
          = (.ok (chainPayload fs (.req r)), chainTrace fs (.req r)))
    ∧ (∀ (fl : Flow) (reg : Category → List Plugin) (c : Category)
        (cs : List Category) (payload q : Payload) (tr : List Call),
        runCat fl c (reg c) payload = (.next q, tr) →
        runCats fl reg (c :: cs) payload
          = ((runCats fl reg cs q).1, tr ++ (runCats fl reg cs q).2))
    ∧ (∀ (fs : List (String × (Payload → HTTPRequest))) (r : HTTPRequest),
        (contentPipeline fs).RunRequest r
          = (.ok continueResponse, chainTrace fs (.req r))) := by
  refine ⟨fun fs r => contentPipeline_run fs (.req r),
    fun fl reg c cs payload q tr h => runCats_next_lemma h, ?_⟩
  intro fs r
  obtain ⟨r2, hr2⟩ := chainPayload_isReq fs r
  show (let (result, tr) := (contentPipeline fs).Run FlowRequest (.req r);
    match result with
    | .error e => (Except.error e, tr)
    | .ok (.resp hr) => (.ok hr, tr)
    | .ok _ => (.ok continueResponse, tr)) = _
  rw [contentPipeline_run fs (.req r), hr2]

/-- C1 (witness): the amended theorem applied to a one-modifier chain
and to a skip step with an everywhere-empty registry. -/
theorem c1_request_mutation_amended_witness :
    (contentPipeline [("H1", fun _ => mr1)]).Run FlowRequest (.req sampleReq)
        = (.ok (chainPayload [("H1", fun _ => mr1)] (.req sampleReq)),
           chainTrace [("H1", fun _ => mr1)] (.req sampleReq))
    ∧ runCats FlowRequest (fun _ => []) ("validation" :: ["content"])
          (.req sampleReq)
        = ((runCats FlowRequest (fun _ => []) ["content"] (.req sampleReq)).1,
           [] ++ (runCats FlowRequest (fun _ => []) ["content"]
              (.req sampleReq)).2) :=
  ⟨c1_request_mutation_amended.1 [("H1", fun _ => mr1)] sampleReq,
   c1_request_mutation_amended.2.1 FlowRequest (fun _ => []) "validation"
     ["content"] (.req sampleReq) (.req sampleReq) [] rfl⟩

/-- C2: in a REQUEST flow, a serial plugin returning `continue=false`
makes `runSerial` halt with exactly that response after exactly that
call (no later plugin of the category appears in the trace); a halted
category makes `runCats` return immediately (no later category runs);
and the middleware writes a `Continue=false` response as the reply
without serving the application handler. -/
theorem c2_short_circuit :
    (∀ (props : CategoryProperties) (pl : Plugin) (rest : List Plugin)
        (payload : Payload) (hr : HTTPResponse),
        pl.handleRequest payload = .ok (.resp hr) → hr.Continue = false →
        runSerial FlowRequest props (pl :: rest) payload
          = (.halt (.ok (.resp hr)), [⟨pl.id, FlowRequest, payload⟩]))
    ∧ (∀ (fl : Flow) (reg : Category → List Plugin) (c : Category)
        (cs : List Category) (payload : Payload)
        (r : Except GoError Payload) (tr : List Call),
        runCat fl c (reg c) payload = (.halt r, tr) →
        runCats fl reg (c :: cs) payload = (r, tr))
    ∧ (∀ (p : Pipeline) (req : HTTPRequest)
        (handler : HTTPRequest → HTTPResponse) (resp : HTTPResponse),
        (p.RunRequest req).1 = .ok resp → resp.Continue = false →
        p.Middleware req handler
          = (.shortCircuit resp, (p.RunRequest req).2)) := by
  refine ⟨?_, fun fl reg c cs payload r tr h => runCats_halt_lemma h, ?_⟩
  · intro props pl rest payload hr h1 h2
    have hcall : callPlugin FlowRequest pl payload
        = (.ok (.resp hr), [⟨pl.id, FlowRequest, payload⟩]) := by
      simp [callPlugin, h1]
    simp [runSerial, hcall, h2]
  · intro p req handler resp h1 h2
    rcases hrr : p.RunRequest req with ⟨r1, tr1⟩
    have h1b : r1 = .ok resp := by rw [hrr] at h1; exact h1
    subst h1b
    show (let (r1b, tr1b) := p.RunRequest req;
      match r1b with
      | .error _ => (MWOutcome.errorReply 503, tr1b)
      | .ok resp2 =>
        if resp2.Continue = false then (.shortCircuit resp2, tr1b)
        else
          let hr := handler req
          let handlerResp : HTTPResponse :=
            { StatusCode := hr.StatusCode, Headers := hr.Headers
              Body := hr.Body, Continue := true, ModifiedRequest := none }
          let (r2, tr2) := p.RunResponse handlerResp
          match r2 with
          | .error _ => (.errorReply 503, tr1b ++ tr2)
          | .ok fin => (.served req fin, tr1b ++ tr2)) = _
    rw [hrr]
    simp [h2]

/-- C2 (witness): the S2 scenario — blocking validation plugin `V`
before content plugin `A` — instantiates all three conjuncts: the
category halts with `blockResp` after the single call to `V`, later
categories are skipped, and the middleware writes `blockResp` without
serving the handler. -/
theorem c2_short_circuit_witness :
    runSerial FlowRequest ⟨ExecSerial, true, false⟩
        [blockPlugin, modifierPlugin "A" (fun _ => mr1)] (.req sampleReq)
      = (.halt (.ok (.resp blockResp)), [⟨"V", FlowRequest, .req sampleReq⟩])
    ∧ runCats FlowRequest pipeS2.pluginsFor ("validation" :: ["content"])
        (.req sampleReq)
      = (.ok (.resp blockResp), [⟨"V", FlowRequest, .req sampleReq⟩])
    ∧ pipeS2.Middleware sampleReq sampleHandler
      = (.shortCircuit blockResp, (pipeS2.RunRequest sampleReq).2) :=
  ⟨c2_short_circuit.1 ⟨ExecSerial, true, false⟩ blockPlugin
     [modifierPlugin "A" (fun _ => mr1)] (.req sampleReq) blockResp rfl rfl,
   c2_short_circuit.2.1 FlowRequest pipeS2.pluginsFor "validation"
     ["content"] (.req sampleReq) (.ok (.resp blockResp))
     [⟨"V", FlowRequest, .req sampleReq⟩] rfl,
   c2_short_circuit.2.2 pipeS2 sampleReq sampleHandler blockResp rfl rfl⟩

/-- C3: the error policy of `Run`, in either flow.  A plugin call
errors in flow `fl` when `fl` is REQUEST and `HandleRequest` errors, or
`fl` is RESPONSE and `HandleResponse` errors.  In serial mode a
required plugin's error halts the run with `RequiredPluginFailed`
wrapping the cause (whatever `canReject` says); an optional plugin's
error halts with the underlying error when the category can reject;
otherwise the error is only logged and the remaining plugins run (the
category's outcome is that of the rest).  In parallel mode the same
per-plugin classification decides what is sent on the error channel. -/
theorem c3_error_policy :
    (∀ (fl : Flow) (props : CategoryProperties) (pl : Plugin)
        (rest : List Plugin) (payload : Payload) (e : GoError),
        ((fl = FlowRequest ∧ pl.handleRequest payload = .error e)
          ∨ (fl = FlowResponse ∧ pl.handleResponse payload = .error e)) →
        pl.required = true →
        runSerial fl props (pl :: rest) payload
          = (.halt (.error (.wrapPair ErrRequiredPluginFailed e)),
             [⟨pl.id, fl, payload⟩]))
    ∧ (∀ (fl : Flow) (props : CategoryProperties) (pl : Plugin)
        (rest : List Plugin) (payload : Payload) (e : GoError),
        ((fl = FlowRequest ∧ pl.handleRequest payload = .error e)
          ∨ (fl = FlowResponse ∧ pl.handleResponse payload = .error e)) →
        pl.required = false → props.CanReject = true →
        runSerial fl props (pl :: rest) payload
          = (.halt (.error e), [⟨pl.id, fl, payload⟩]))
    ∧ (∀ (fl : Flow) (props : CategoryProperties) (pl : Plugin)
        (rest : List Plugin) (payload : Payload) (e : GoError),
        ((fl = FlowRequest ∧ pl.handleRequest payload = .error e)
          ∨ (fl = FlowResponse ∧ pl.handleResponse payload = .error e)) →
        pl.required = false → props.CanReject = false →
        runSerial fl props (pl :: rest) payload
          = ((runSerial fl props rest payload).1,
             ⟨pl.id, fl, payload⟩
               :: (runSerial fl props rest payload).2))
    ∧ (∀ (fl : Flow) (props : CategoryProperties) (pl : Plugin)
        (payload : Payload) (e : GoError),
        ((fl = FlowRequest ∧ pl.handleRequest payload = .error e)
          ∨ (fl = FlowResponse ∧ pl.handleResponse payload = .error e)) →
        parallelErr fl props pl payload
          = (if pl.required then some (.wrapPair ErrRequiredPluginFailed e)
             else if props.CanReject then some e else none,
             [⟨pl.id, fl, payload⟩])) := by
  have hcall : ∀ (fl : Flow) (pl : Plugin) (payload : Payload) (e : GoError),
      ((fl = FlowRequest ∧ pl.handleRequest payload = .error e)
        ∨ (fl = FlowResponse ∧ pl.handleResponse payload = .error e)) →
      callPlugin fl pl payload = (.error e, [⟨pl.id, fl, payload⟩]) := by
    intro fl pl payload e h
    rcases h with ⟨hf, he⟩ | ⟨hf, he⟩ <;> subst hf <;>
      simp [callPlugin, FlowRequest, FlowResponse, he]
  refine ⟨?_, ?_, ?_, ?_⟩
  · intro fl props pl rest payload e h hreq
    simp [runSerial, hcall fl pl payload e h, hreq]
  · intro fl props pl rest payload e h hreq hrej
    simp [runSerial, hcall fl pl payload e h, hreq, hrej]
  · intro fl props pl rest payload e h hreq hrej
    simp [runSerial, hcall fl pl payload e h, hreq, hrej]
  · intro fl props pl payload e h
    by_cases hreq : pl.required = true
    · simp [parallelErr, hcall fl pl payload e h, hreq]
    · by_cases hrej : props.CanReject = true
      · simp [parallelErr, hcall fl pl payload e h, hreq, hrej]
      · simp [parallelErr, hcall fl pl payload e h, hreq, hrej]

/-- C3 (witness): the branches at concrete plugins in both flows — a
required plugin failing in REQUEST flow and one failing in RESPONSE
flow (both in a non-rejecting category), an optional REQUEST-flow
failure in a rejecting category, an optional RESPONSE-flow failure in a
non-rejecting category, and the parallel classification of optional
failures in each flow. -/
theorem c3_error_policy_witness :
    runSerial FlowRequest ⟨ExecSerial, false, false⟩ [errPluginReq]
        (.req sampleReq)
      = (.halt (.error (.wrapPair ErrRequiredPluginFailed (.mk "boom"))),
         [⟨"R", FlowRequest, .req sampleReq⟩])
    ∧ runSerial FlowResponse ⟨ExecSerial, false, false⟩ [errRespReq]
        (.resp resp0)
      = (.halt (.error (.wrapPair ErrRequiredPluginFailed (.mk "boom"))),
         [⟨"RR", FlowResponse, .resp resp0⟩])
    ∧ runSerial FlowRequest ⟨ExecSerial, true, false⟩ [errPluginOpt]
        (.req sampleReq)
      = (.halt (.error (.mk "boom")), [⟨"E", FlowRequest, .req sampleReq⟩])
    ∧ runSerial FlowResponse ⟨ExecSerial, false, false⟩ [errRespOpt]
        (.resp resp0)
      = ((runSerial FlowResponse ⟨ExecSerial, false, false⟩ []
            (.resp resp0)).1,
         ⟨"EO", FlowResponse, .resp resp0⟩
           :: (runSerial FlowResponse ⟨ExecSerial, false, false⟩ []
            (.resp resp0)).2)
    ∧ parallelErr FlowRequest ⟨ExecParallel, false, false⟩ errPluginOpt
        (.req sampleReq)
      = (if errPluginOpt.required
         then some (.wrapPair ErrRequiredPluginFailed (.mk "boom"))
         else if (⟨ExecParallel, false, false⟩
             : CategoryProperties).CanReject
         then some (.mk "boom") else none,
         [⟨"E", FlowRequest, .req sampleReq⟩])
    ∧ parallelErr FlowResponse ⟨ExecParallel, false, false⟩ errRespOpt
        (.resp resp0)
      = (if errRespOpt.required
         then some (.wrapPair ErrRequiredPluginFailed (.mk "boom"))
         else if (⟨ExecParallel, false, false⟩
             : CategoryProperties).CanReject
         then some (.mk "boom") else none,
         [⟨"EO", FlowResponse, .resp resp0⟩]) :=
  ⟨c3_error_policy.1 FlowRequest ⟨ExecSerial, false, false⟩ errPluginReq []
     (.req sampleReq) (.mk "boom") (Or.inl ⟨rfl, rfl⟩) rfl,
   c3_error_policy.1 FlowResponse ⟨ExecSerial, false, false⟩ errRespReq []
     (.resp resp0) (.mk "boom") (Or.inr ⟨rfl, rfl⟩) rfl,
   c3_error_policy.2.1 FlowRequest ⟨ExecSerial, true, false⟩ errPluginOpt []
     (.req sampleReq) (.mk "boom") (Or.inl ⟨rfl, rfl⟩) rfl rfl,
   c3_error_policy.2.2.1 FlowResponse ⟨ExecSerial, false, false⟩ errRespOpt
     [] (.resp resp0) (.mk "boom") (Or.inr ⟨rfl, rfl⟩) rfl rfl,
   c3_error_policy.2.2.2 FlowRequest ⟨ExecParallel, false, false⟩
     errPluginOpt (.req sampleReq) (.mk "boom") (Or.inl ⟨rfl, rfl⟩),
   c3_error_policy.2.2.2 FlowResponse ⟨ExecParallel, false, false⟩
     errRespOpt (.resp resp0) (.mk "boom") (Or.inr ⟨rfl, rfl⟩)⟩

/-- C4 (counterexample): `Run` called with the unknown flow value `2`
on an empty pipeline completes successfully, returning the payload —
it does not return an error as the claim states. -/
theorem c4_unknown_flow_counterexample :
    NewPipeline.Run 2 (.req sampleReq) = (.ok (.req sampleReq), []) := rfl

/-- C4 (amended): capability sets never contain an unknown flow, so an
unknown flow deactivates every capability-backed plugin and `Run`
completes successfully with the unchanged payload and an empty call
trace; the per-plugin "unknown flow" error exists but fires only for a
plugin whose `CanHandle` accepts the flow — e.g. a required one in a
serial category, which then fails the pipeline without any plugin
call being made. -/
theorem c4_unknown_flow_amended :
    (∀ (caps : Capabilities) (fl : Flow),
        fl ≠ FlowRequest → fl ≠ FlowResponse → caps.contains fl = false)
    ∧ (∀ (p : Pipeline) (fl : Flow) (payload : Payload),
        fl ≠ FlowRequest → fl ≠ FlowResponse →
        (∀ cat pl, pl ∈ p.pluginsFor cat → pl.canHandle fl = false) →
        p.Run fl payload = (.ok payload, []))
    ∧ (∀ (fl : Flow) (props : CategoryProperties) (pl : Plugin)
        (rest : List Plugin) (payload : Payload),
        fl ≠ FlowRequest → fl ≠ FlowResponse → pl.required = true →
        runSerial fl props (pl :: rest) payload
          = (.halt (.error (.wrapPair ErrRequiredPluginFailed
              (.mk ("unknown flow: " ++ toString fl)))), [])) := by
  refine ⟨?_, ?_, ?_⟩
  · intro caps fl h1 h2
    simp [Capabilities.contains, h1, h2]
  · intro p fl payload h1 h2 h3
    exact runCats_all_inactive fl p.pluginsFor OrderedCategories payload
      (fun c _ pl hpl => h3 c pl hpl)
  · intro fl props pl rest payload h1 h2 h3
    have hcall : callPlugin fl pl payload
        = (.error (.mk ("unknown flow: " ++ toString fl)), []) := by
      simp [callPlugin, h1, h2]
    simp [runSerial, hcall, h3]

/-- C4 (witness): the amended theorem at flow value `2` on the empty
pipeline, and at flow value `5` with a required plugin. -/
theorem c4_unknown_flow_amended_witness :
    (⟨true, true⟩ : Capabilities).contains 2 = false
    ∧ NewPipeline.Run 2 (.req sampleReq) = (.ok (.req sampleReq), [])
    ∧ runSerial 5 ⟨ExecSerial, false, false⟩ [errPluginReq] (.req sampleReq)
      = (.halt (.error (.wrapPair ErrRequiredPluginFailed
          (.mk ("unknown flow: " ++ toString (5 : Flow))))), []) :=
  ⟨c4_unknown_flow_amended.1 ⟨true, true⟩ 2 (by decide) (by decide),
   c4_unknown_flow_amended.2.1 NewPipeline 2 (.req sampleReq) (by decide)
     (by decide)
     (by intro cat pl h; simp [Pipeline.pluginsFor, NewPipeline] at h),
   c4_unknown_flow_amended.2.2 5 ⟨ExecSerial, false, false⟩ errPluginReq []
     (.req sampleReq) (by decide) (by decide) rfl⟩

/-- C5 (code bug, evaluation): in a RESPONSE flow, a content plugin
returning `mutResp = {continue=true, 201, X-M, body}` does NOT make
`mutResp` the payload for later plugins or the result — `RunResponse`
returns the ORIGINAL `resp0` because the serial loop drops a
`Continue=true` response unless it carries a `modifiedRequest`; and a
non-null `modifiedRequest` is NOT ignored in RESPONSE flow: the next
plugin `O` receives `.req mr1`, an `HTTPRequest`, as its response-flow
payload.  Both contradict the claim (and `RunResponse`'s own doc
comment, which promises plugins can modify body/headers/status). -/
theorem c5_response_mutation_eval :
    (pipeMut.RunResponse resp0).1 = .ok resp0
    ∧ (pipeMut.Run FlowResponse (.resp resp0)).2
        = [⟨"M", FlowResponse, .resp resp0⟩]
    ∧ resp0 ≠ mutResp
    ∧ (pipeModReq.Run FlowResponse (.resp resp0)).2
        = [⟨"N", FlowResponse, .resp resp0⟩, ⟨"O", FlowResponse, .req mr1⟩] :=
  ⟨rfl, rfl, by decide, rfl⟩

/-- C6 (counterexample): for a plugin whose process must be force-killed
and whose kill fails, `stopPlugin` produces an error, yet `StopAll`
still returns `nil` — not the joined error the claim states. -/
theorem c6_stopall_counterexample :
    (Manager.StopAll ⟨[("p", rpKillFail)]⟩).1.result = none
    ∧ Manager.stopPlugin rpKillFail
        = some (.wrap "failed to kill process" (.mk "kill error")) :=
  ⟨rfl, rfl⟩

/-- C6 (amended): `StopAll` always returns `nil` and clears the map; a
failed force-kill makes `stopPlugin` return an error, which `StopAll`
merely logs; a failed `Stop` RPC, or a force-kill that succeeds, never
produces a `stopPlugin` error at all. -/
theorem c6_stopall_amended :
    (∀ st : ManagerState,
        (Manager.StopAll st).1.result = none
        ∧ (Manager.StopAll st).2 = ⟨[]⟩)
    ∧ (∀ rp : runningPlugin,
        rp.exitsWithinWait = false → rp.killFails = true →
        Manager.stopPlugin rp
          = some (.wrap "failed to kill process" (.mk "kill error")))
    ∧ (∀ rp : runningPlugin,
        rp.exitsWithinWait = true ∨ rp.killFails = false →
        Manager.stopPlugin rp = none) := by
  refine ⟨fun st => ⟨rfl, rfl⟩, ?_, ?_⟩
  · intro rp h1 h2
    simp [Manager.stopPlugin, h1, h2]
  · intro rp h
    rcases h with h | h
    · simp [Manager.stopPlugin, h]
    · by_cases hw : rp.exitsWithinWait = true
      · simp [Manager.stopPlugin, hw]
      · simp [Manager.stopPlugin, hw, h]

/-- C6 (witness): the amended theorem at a state holding one plugin, at
the kill-failing plugin, and at a well-behaved plugin. -/
theorem c6_stopall_amended_witness :
    ((Manager.StopAll st0).1.result = none
      ∧ (Manager.StopAll st0).2 = ⟨[]⟩)
    ∧ Manager.stopPlugin rpKillFail
        = some (.wrap "failed to kill process" (.mk "kill error"))
    ∧ Manager.stopPlugin rpOldConc = none :=
  ⟨c6_stopall_amended.1 st0,
   c6_stopall_amended.2.1 rpKillFail rfl rfl,
   c6_stopall_amended.2.2 rpOldConc (Or.inl rfl)⟩

/-- C7 (counterexample): over one successfully started plugin's
lifetime `GetMetadata` is issued TWICE, not once — `Manager.Start`
calls it for registration and `NewGRPCPluginAdapter` fetches it again
when filling its cache.  The RPC trace of a successful start is
`[GetMetadata, GetMetadata, GetCapabilities]`. -/
theorem c7_metadata_rpc_counterexample :
    (Manager.StartFromConn st0 proc0 cGood).1 = .ok inst0
    ∧ (Manager.StartFromConn st0 proc0 cGood).2.2.2
        = [.getMetadata, .getMetadata, .getCapabilities]
    ∧ ((Manager.StartFromConn st0 proc0 cGood).2.2.2).count
        RPCMethod.getMetadata = 2 :=
  ⟨rfl, rfl, by decide⟩

/-- C7 (amended): during one successful start `GetCapabilities` is
issued exactly once but `GetMetadata` twice (once by `Manager.Start`,
once at adapter creation); afterwards neither is ever refreshed —
`Metadata()` and `Capabilities()` return the cached values with no RPC
issued, and being total functions they cannot fail. -/
theorem c7_caching_amended :
    (∀ (st : ManagerState) (proc : ProcDescriptor) (c : PluginClient)
        (inst : PluginInstance) (st2 : ManagerState)
        (acts : List StartAction) (rpcs : List RPCMethod),
        Manager.StartFromConn st proc c = (.ok inst, st2, acts, rpcs) →
        rpcs = [.getMetadata, .getMetadata, .getCapabilities])
    ∧ (∀ a : grpcPluginAdapter,
        a.Metadata = (a.metadata, []) ∧ a.Capabilities = (a.capabilities, [])) := by
  refine ⟨?_, fun a => ⟨rfl, rfl⟩⟩
  intro st proc c inst st2 acts rpcs h
  obtain ⟨md, caps, _, _, _, _, hrpcs⟩ := startFromConn_ok_shape h
  exact hrpcs

/-- C7 (witness): the amended theorem at the concrete successful start
of `cGood` and at the adapter it caches. -/
theorem c7_caching_amended_witness :
    ([RPCMethod.getMetadata, RPCMethod.getMetadata,
        RPCMethod.getCapabilities]
      = [RPCMethod.getMetadata, RPCMethod.getMetadata,
         RPCMethod.getCapabilities])
    ∧ (adapter0.Metadata = (adapter0.metadata, [])
        ∧ adapter0.Capabilities = (adapter0.capabilities, [])) :=
  ⟨c7_caching_amended.1 st0 proc0 cGood inst0 ⟨[("p", rpNew0)]⟩ []
     [.getMetadata, .getMetadata, .getCapabilities] rfl,
   c7_caching_amended.2 adapter0⟩

/-- C8: a plugin whose normalised capability set is empty at handshake
makes `Manager.Start` fail with `creating adapter: fetching
capabilities: plugin returned empty capabilities`, kill the process and
close the connection, and leave the manager's plugin map exactly as it
was — the plugin is not registered. -/
theorem c8_empty_capabilities :
    ∀ (st : ManagerState) (proc : ProcDescriptor) (c : PluginClient)
      (md : Metadata) (flows : List WireFlow),
      c.metadataResult = .ok md →
      c.capabilitiesResult = .ok flows →
      normaliseFlows flows = ⟨false, false⟩ →
      Manager.StartFromConn st proc c
        = (.error (.wrap "creating adapter" (.wrap "fetching capabilities"
            (.mk "plugin returned empty capabilities"))),
           st, [.killProcess, .closeConn],
           [.getMetadata, .getMetadata, .getCapabilities]) := by
  intro st proc c md flows h1 h2 h3
  simp [Manager.StartFromConn, NewGRPCPluginAdapter, fetchMetadata,
    fetchCapabilities, h1, h2, h3]

/-- C8 (witness): the theorem at a client that declares only the
unknown wire flow tag `47`, whose normalised set is empty. -/
theorem c8_empty_capabilities_witness :
    Manager.StartFromConn st0 proc0 cEmptyCaps
      = (.error (.wrap "creating adapter" (.wrap "fetching capabilities"
          (.mk "plugin returned empty capabilities"))),
         st0, [.killProcess, .closeConn],
         [.getMetadata, .getMetadata, .getCapabilities]) :=
  c8_empty_capabilities st0 proc0 cEmptyCaps md0 [(47 : WireFlow)]
    rfl rfl rfl

/-- C9: a parallel category whose plugins produce no policy-fatal error
is a no-op for the payload, in either flow: every active plugin is
called with the identical entering payload and the category steps to
the next one with that same payload; and any successful wire response —
including one with `continue=false` or a non-null `modifiedRequest` —
is discarded, contributing nothing to the error channel. -/
theorem c9_parallel_noop :
    (∀ (fl : Flow) (props : CategoryProperties) (cat : Category)
        (active : List Plugin) (payload : Payload),
        (fl = FlowRequest ∨ fl = FlowResponse) →
        props.CanModify = false →
        (∀ pl ∈ active,
          (parallelErr fl props pl payload).1 = none) →
        runParallel fl props cat active payload
          = (.next payload,
             active.map (fun pl => ⟨pl.id, fl, payload⟩)))
    ∧ (∀ (fl : Flow) (props : CategoryProperties) (pl : Plugin)
        (payload : Payload) (v : Payload),
        ((fl = FlowRequest ∧ pl.handleRequest payload = .ok v)
          ∨ (fl = FlowResponse ∧ pl.handleResponse payload = .ok v)) →
        parallelErr fl props pl payload
          = (none, [⟨pl.id, fl, payload⟩])) := by
  refine ⟨?_, ?_⟩
  · intro fl props cat active payload hfl hmod h
    have herrs := parallel_errs_nil fl props active payload h
    have htr := parallel_trace fl hfl props active payload
    simp only [List.map_map] at herrs htr
    simp [runParallel, hmod, List.map_map, herrs, htr]
  · intro fl props pl payload v h
    rcases h with ⟨hf, he⟩ | ⟨hf, he⟩ <;> subst hf <;>
      simp [parallelErr, callPlugin, FlowRequest, FlowResponse, he]

/-- C9 (witness): the observability category properties, in both flows,
with a plugin whose response both short-circuits and mutates — the
category is still a payload no-op and the response contributes no
error. -/
theorem c9_parallel_noop_witness :
    runParallel FlowRequest ⟨ExecParallel, false, false⟩ "observability"
        [noisyPlugin] (.req sampleReq)
      = (.next (.req sampleReq), [⟨"P", FlowRequest, .req sampleReq⟩])
    ∧ runParallel FlowResponse ⟨ExecParallel, false, false⟩ "observability"
        [noisyRespPlugin] (.resp resp0)
      = (.next (.resp resp0), [⟨"Q", FlowResponse, .resp resp0⟩])
    ∧ parallelErr FlowRequest ⟨ExecParallel, false, false⟩ noisyPlugin
        (.req sampleReq)
      = (none, [⟨"P", FlowRequest, .req sampleReq⟩])
    ∧ parallelErr FlowResponse ⟨ExecParallel, false, false⟩ noisyRespPlugin
        (.resp resp0)
      = (none, [⟨"Q", FlowResponse, .resp resp0⟩]) :=
  ⟨c9_parallel_noop.1 FlowRequest ⟨ExecParallel, false, false⟩
     "observability" [noisyPlugin] (.req sampleReq) (Or.inl rfl) rfl
     (by intro pl h; simp at h; subst h; rfl),
   c9_parallel_noop.1 FlowResponse ⟨ExecParallel, false, false⟩
     "observability" [noisyRespPlugin] (.resp resp0) (Or.inr rfl) rfl
     (by intro pl h; simp at h; subst h; rfl),
   c9_parallel_noop.2 FlowRequest ⟨ExecParallel, false, false⟩ noisyPlugin
     (.req sampleReq) (.resp ⟨429, [], [], false, some mr1⟩)
     (Or.inl ⟨rfl, rfl⟩),
   c9_parallel_noop.2 FlowResponse ⟨ExecParallel, false, false⟩
     noisyRespPlugin (.resp resp0) (.resp ⟨500, [], [], false, some mr1⟩)
     (Or.inr ⟨rfl, rfl⟩)⟩

/-- C10: a successful `Start` whose metadata name collides with an
already-registered running plugin silently replaces it: afterwards the
map holds exactly one entry for that name — the new record — while
entries under other names are untouched; the displaced record's entry
is gone, and `StopAll` stops exactly the records still in the map, so
it will never stop or clean up the displaced process. -/
theorem c10_duplicate_name :
    ∀ (st : ManagerState) (proc : ProcDescriptor) (c : PluginClient)
      (md : Metadata) (rpOld : runningPlugin) (inst : PluginInstance)
      (st2 : ManagerState) (acts : List StartAction)
      (rpcs : List RPCMethod),
      c.metadataResult = .ok md →
      (md.Name, rpOld) ∈ st.plugins →
      Manager.StartFromConn st proc c = (.ok inst, st2, acts, rpcs) →
      (∀ rp, (md.Name, rp) ∈ st2.plugins ↔ rp = startedRP proc md.Name)
      ∧ (∀ k rp, k ≠ md.Name →
          ((k, rp) ∈ st2.plugins ↔ (k, rp) ∈ st.plugins))
      ∧ (rpOld ≠ startedRP proc md.Name → (md.Name, rpOld) ∉ st2.plugins)
      ∧ (Manager.StopAll st2).1.stopped = st2.plugins.map (·.2) := by
  intro st proc c md rpOld inst st2 acts rpcs h1 h2 h3
  obtain ⟨md2, caps, hm, hinst, hst2, hacts, hrpcs⟩ :=
    startFromConn_ok_shape h3
  have hmd : md2 = md := by
    have := h1.symm.trans hm
    injection this with h
    exact h.symm
  subst hmd
  subst hst2
  refine ⟨?_, ?_, ?_, rfl⟩
  · intro rp
    exact mapInsert_mem_key st.plugins md2.Name (startedRP proc md2.Name) rp
  · intro k rp hk
    exact mapInsert_mem_other st.plugins md2.Name k
      (startedRP proc md2.Name) rp hk
  · intro hne hmem
    exact hne ((mapInsert_mem_key st.plugins md2.Name
      (startedRP proc md2.Name) rpOld).mp hmem)

/-- C10 (witness): starting `cGood` (name `p`) over a state already
holding a running plugin named `p`. -/
theorem c10_duplicate_name_witness :
    (∀ rp, (md0.Name, rp) ∈ (⟨[("p", rpNew0)]⟩ : ManagerState).plugins
        ↔ rp = startedRP proc0 md0.Name)
    ∧ (∀ k rp, k ≠ md0.Name →
        ((k, rp) ∈ (⟨[("p", rpNew0)]⟩ : ManagerState).plugins
          ↔ (k, rp) ∈ st0.plugins))
    ∧ (rpOldConc ≠ startedRP proc0 md0.Name →
        (md0.Name, rpOldConc) ∉ (⟨[("p", rpNew0)]⟩ : ManagerState).plugins)
    ∧ (Manager.StopAll ⟨[("p", rpNew0)]⟩).1.stopped
        = (⟨[("p", rpNew0)]⟩ : ManagerState).plugins.map (·.2) :=
  c10_duplicate_name st0 proc0 cGood md0 rpOldConc inst0
    ⟨[("p", rpNew0)]⟩ [] [.getMetadata, .getMetadata, .getCapabilities]
    rfl (by simp [st0, md0]) rfl

end PluginsDemo
